import Mathlib

/-!
Shallow embedding of `src/main.py` (Conda-Module-Installer).

The program resolves a package name to a channel-qualified
`conda install` command by querying anaconda.org.  Network I/O is
modelled by oracles: a per-attempt outcome oracle for `web_request`
(each attempt either yields a response or fails — HTTP errors,
transport errors and unexpected exceptions all take the same branch
in the source), and a per-URL fetch oracle `fetch : String → Option Page`
for the higher stages, abstracting the deterministic result of a
`web_request` call on that URL during one run.  HTML parsing
(BeautifulSoup) is an external collaborator: a parsed page is modelled
by the only data the program reads from it — the sequence of
`code`-element texts in document order — and a parsed search document
by the two selected sequences, module links and channel labels.
Side effects that the claims mention (sleeps, fetched URLs, the
dry-run print, the handed-off argv) are returned explicitly as traces.
-/

set_option autoImplicit false

namespace CondaInstaller

/-- `BASE_SEARCH_URL` from `src/main.py`. -/
def BASE_SEARCH_URL : String := "https://anaconda.org/search?q="

/-- `BASE_MODULE_URL` from `src/main.py`. -/
def BASE_MODULE_URL : String := "https://anaconda.org/"

/-- `CHANNELS`, the default channel priority list from `src/main.py`. -/
def CHANNELS : List String := ["conda-forge", "anaconda", "main", "auto"]

/-- `MAX_RETRIES` from `src/main.py`. -/
def MAX_RETRIES : Nat := 3

/-- Helper for `pySplit`: scan the characters left to right, building the
current token in `acc` (reversed); a whitespace character ends the
current token, and empty tokens are never emitted. -/
def pySplitAux : List Char → List Char → List String
  | [], acc => if acc.isEmpty then [] else [⟨acc.reverse⟩]
  | c :: cs, acc =>
    if c.isWhitespace then
      if acc.isEmpty then pySplitAux cs [] else ⟨acc.reverse⟩ :: pySplitAux cs []
    else pySplitAux cs (c :: acc)

/-- Python `s.split()` with no argument: split on runs of whitespace,
discarding empty tokens. -/
def pySplit (s : String) : List String :=
  pySplitAux s.data []

/-- `listStartsWith p l` : `p` is an initial segment of `l`. -/
def listStartsWith : List Char → List Char → Bool
  | [], _ => true
  | _ :: _, [] => false
  | p :: ps, c :: cs => p == c && listStartsWith ps cs

/-- Helper for `containsSubstr`: does `pat` start at some position of the
character list? -/
def strContainsAux (pat : List Char) : List Char → Bool
  | [] => pat.isEmpty
  | c :: cs => listStartsWith pat (c :: cs) || strContainsAux pat cs

/-- Python `pat in s`: `pat` occurs as a contiguous substring of `s`. -/
def containsSubstr (s pat : String) : Bool :=
  strContainsAux pat.data s.data

/-- Python `s.strip()` (restricted, as the source data is, to ASCII
whitespace): drop whitespace from both ends. -/
def pyStrip (s : String) : String :=
  ⟨((s.data.dropWhile Char.isWhitespace).reverse.dropWhile Char.isWhitespace).reverse⟩

/-- Trace of one `web_request` call: the returned value, the number of
attempts made, and the sleep durations in order (one sleep is inserted
after each failed non-final attempt). -/
structure FetchTrace (α : Type) where
  result : Option α
  attempts : Nat
  sleeps : List Nat
  deriving Repr, DecidableEq

/-- The retry loop of `web_request` (`src/main.py` lines 40–57), started
at loop index `attempt`.  `outcomes i` is the result of attempt `i`:
`some r` if `session.get` succeeds with a 2xx/3xx status, `none` if any
of the three `except` branches fires (all three behave identically).
After a failed attempt `i` with `i < retries - 1` the code sleeps
`2 ^ i` and continues; after the final attempt it returns `None`
without sleeping. -/
def web_request_go {α : Type} (outcomes : Nat → Option α) (retries attempt : Nat) :
    FetchTrace α :=
  if _h : attempt < retries then
    match outcomes attempt with
    | some r => ⟨some r, 1, []⟩
    | none =>
      if attempt < retries - 1 then
        let t := web_request_go outcomes retries (attempt + 1)
        ⟨t.result, t.attempts + 1, 2 ^ attempt :: t.sleeps⟩
      else ⟨none, 1, []⟩
  else ⟨none, 0, []⟩
termination_by retries - attempt
decreasing_by omega

/-- `web_request` (`src/main.py` lines 23–57): run the retry loop from
attempt 0. -/
def web_request {α : Type} (outcomes : Nat → Option α) (retries : Nat := MAX_RETRIES) :
    FetchTrace α :=
  web_request_go outcomes retries 0

/-- A fetched and parsed module page, reduced to the data the program
reads from it: the texts of its `code` elements in document order
(`soup.find_all("code")` in `extract_install_command`). -/
structure Page where
  codeTexts : List String
  deriving Repr, DecidableEq

/-- A parsed search-results document, reduced to the two selected
sequences of `fetch_module_page`:
`module_links = soup.select("#search h5 a:nth-child(1)")` and
`module_channels = soup.select("#search h5 a:nth-child(2) strong")`
(for the latter, the `.text` of each element). -/
structure SearchDoc where
  module_links : List String
  module_channels : List String
  deriving Repr, DecidableEq

/-- The search URL built in `search_module`: `BASE_SEARCH_URL + module_name`. -/
def search_url (module_name : String) : String :=
  BASE_SEARCH_URL ++ module_name

/-- `search_module` (`src/main.py` lines 60–81): fetch the search page
and parse it.  `fetch` abstracts `web_request` with the given session,
`parse` abstracts `BeautifulSoup(response.text, "html.parser")`
followed by the two CSS selections. -/
def search_module (module_name : String) (fetch : String → Option Page)
    (parse : Page → SearchDoc) : Option SearchDoc :=
  match fetch (search_url module_name) with
  | none => none
  | some response => some (parse response)

/-- The module URL built in the probe loop of `fetch_module_page`:
`f"{BASE_MODULE_URL}{channel}/{module_name}"`. -/
def module_url (module_name channel : String) : String :=
  BASE_MODULE_URL ++ channel ++ "/" ++ module_name

/-- The channel-priority construction of `fetch_module_page`
(`src/main.py` lines 114–118): `if preferred_channel and
preferred_channel in CHANNELS: channels = [preferred_channel] + CHANNELS
else: channels = CHANNELS`.  The Python truthiness test on the string is
kept (`none` and the empty string are falsy). -/
def build_channels (preferred_channel : Option String) : List String :=
  match preferred_channel with
  | none => CHANNELS
  | some c => if c ≠ "" ∧ c ∈ CHANNELS then c :: CHANNELS else CHANNELS

/-- The probe loop of `fetch_module_page` (`src/main.py` lines 120–128):
iterate the channel tags in document order; for each tag whose stripped
text is in the allowed list, fetch the module URL; return the first
success together with the stripped channel.  Also returns the list of
module URLs actually fetched, in order. -/
def probe_channels (module_name : String) (channels : List String)
    (fetch : String → Option Page) :
    List String → List String × Option (Page × String)
  | [] => ([], none)
  | tag :: rest =>
    let channel := pyStrip tag
    if channel ∈ channels then
      match fetch (module_url module_name channel) with
      | some response => ([module_url module_name channel], some (response, channel))
      | none =>
        let t := probe_channels module_name channels fetch rest
        (module_url module_name channel :: t.1, t.2)
    else probe_channels module_name channels fetch rest

/-- The three failure log lines of `fetch_module_page`, one per failing
branch. -/
inductive ResolveFailure where
  /-- `search_module` returned `None` (the search fetch exhausted its retries). -/
  | searchFailed
  /-- `module_links` or `module_channels` was empty: "The module is not
  available from any valid channel." -/
  | noValidChannel
  /-- the probe loop finished without a success: "The module is not
  available from the preferred channels." -/
  | noPreferredChannel
  deriving Repr, DecidableEq

/-- `fetch_module_page` (`src/main.py` lines 84–131), instrumented with
the list of URLs fetched during the call (the search URL first, then the
probed module URLs in order). -/
def fetch_module_page (module_name : String) (preferred_channel : Option String)
    (fetch : String → Option Page) (parse : Page → SearchDoc) :
    List String × Except ResolveFailure (Page × String) :=
  match search_module module_name fetch parse with
  | none => ([search_url module_name], .error .searchFailed)
  | some soup =>
    if soup.module_links = [] ∨ soup.module_channels = [] then
      ([search_url module_name], .error .noValidChannel)
    else
      let probe := probe_channels module_name (build_channels preferred_channel)
        fetch soup.module_channels
      (search_url module_name :: probe.1,
        match probe.2 with
        | some pc => .ok pc
        | none => .error .noPreferredChannel)

/-- The scan loop of `extract_install_command` (`src/main.py` lines
147–150) over the `code`-element texts: return the first text containing
the literal substring `"conda install"`, stripped. -/
def find_conda_code : List String → Option String
  | [] => none
  | t :: rest =>
    if containsSubstr t "conda install" then some (pyStrip t)
    else find_conda_code rest

/-- `extract_install_command` (`src/main.py` lines 134–153). -/
def extract_install_command (response : Page) : Option String :=
  find_conda_code response.codeTexts

/-- `validate_install_command` (`src/main.py` lines 156–176). -/
def validate_install_command (command : String) : Bool :=
  let parts := pySplit command
  if parts.length < 3 then false
  else if parts.getD 0 "" ≠ "conda" ∨ parts.getD 1 "" ≠ "install" then false
  else true

/-- Observable outcome of one run of `main` (`src/main.py` lines
193–228): the process exit code, the command printed by the dry-run
branch (if any), and the argv handed to `subprocess.run` (if any). -/
structure RunResult where
  exitCode : Nat
  printed : Option String
  executed : Option (List String)
  deriving Repr, DecidableEq

/-- `main` (`src/main.py` lines 193–228) with parsed arguments and the
I/O boundary as parameters: `fetch`/`parse` as in `fetch_module_page`,
and `exec_ok argv` telling whether `subprocess.run(argv, check=True)`
exits zero.  Falling off the end of `main` exits the process with
code 0; every failure branch calls `sys.exit(1)`. -/
def mainRun (module_name : String) (channel_arg : Option String) (dry_run : Bool)
    (fetch : String → Option Page) (parse : Page → SearchDoc)
    (exec_ok : List String → Bool) : RunResult :=
  if module_name = "" then ⟨1, none, none⟩
  else
    match (fetch_module_page module_name channel_arg fetch parse).2 with
    | .error _ => ⟨1, none, none⟩
    | .ok (page_response, _channel) =>
      match extract_install_command page_response with
      | none => ⟨1, none, none⟩
      | some install_command =>
        if validate_install_command install_command = false then ⟨1, none, none⟩
        else if dry_run then ⟨0, some install_command, none⟩
        else if exec_ok (pySplit install_command) then
          ⟨0, none, some (pySplit install_command)⟩
        else ⟨1, none, some (pySplit install_command)⟩

theorem web_request_go_all_fail {α : Type} (outcomes : Nat → Option α)
    (retries : Nat) (attempt : Nat)
    (hfail : ∀ i, i < retries → outcomes i = none) :
    web_request_go outcomes retries attempt =
      ⟨none, retries - attempt,
        (List.range' attempt (retries - 1 - attempt)).map (fun i => 2 ^ i)⟩ := by
  rw [web_request_go]
  by_cases h : attempt < retries
  · rw [dif_pos h, hfail attempt h]
    by_cases h2 : attempt < retries - 1
    · rw [if_pos h2, web_request_go_all_fail outcomes retries (attempt + 1) hfail]
      have hn : retries - 1 - attempt = (retries - 1 - (attempt + 1)) + 1 := by omega
      have ha : retries - (attempt + 1) + 1 = retries - attempt := by omega
      rw [hn, List.range'_succ]
      simp [ha]
    · rw [if_neg h2]
      have hn : retries - 1 - attempt = 0 := by omega
      have ha : retries - attempt = 1 := by omega
      simp [hn, ha]
  · rw [dif_neg h]
    have hn : retries - 1 - attempt = 0 := by omega
    have ha : retries - attempt = 0 := by omega
    simp [hn, ha]
termination_by retries - attempt

theorem sum_map_range_pow (n : Nat) :
    ((List.range n).map (fun i => 2 ^ i)).sum = ∑ i ∈ Finset.range n, 2 ^ i := by
  induction n with
  | zero => simp
  | succ n ih => simp [List.range_succ, Finset.sum_range_succ, ih]

/-- C1: for every retry count `r ≥ 1`, a `web_request` call in which every
attempt fails makes exactly `r` attempts, sleeps `2 ^ i` before attempt
`i+1` for `i = 0, …, r-2` (and never after the final attempt), for a
total of `∑ i in [0, r-2], 2 ^ i` time units, and returns `none`. -/
theorem web_request_permanent_failure {α : Type} (outcomes : Nat → Option α) (r : Nat)
    (hr : 1 ≤ r) (hfail : ∀ i, i < r → outcomes i = none) :
    web_request outcomes r =
      ⟨none, r, (List.range (r - 1)).map (fun i => 2 ^ i)⟩ ∧
    (web_request outcomes r).sleeps.sum = ∑ i ∈ Finset.range (r - 1), 2 ^ i := by
  have h := web_request_go_all_fail outcomes r 0 hfail
  rw [Nat.sub_zero, Nat.sub_zero, ← List.range_eq_range'] at h
  refine ⟨h, ?_⟩
  rw [web_request, h]
  exact sum_map_range_pow (r - 1)

theorem web_request_permanent_failure_witness :
    web_request (fun _ => (none : Option Unit)) 3 = ⟨none, 3, [1, 2]⟩ ∧
    (web_request (fun _ => (none : Option Unit)) 3).sleeps.sum =
      ∑ i ∈ Finset.range 2, 2 ^ i := by
  have h := web_request_permanent_failure (fun _ => (none : Option Unit)) 3
    (by decide) (fun i _ => rfl)
  exact ⟨by rw [h.1]; rfl, h.2⟩

/-- C3: a supplied preferred channel that is a member of the default
channel set is prepended to it (duplicates kept); an absent preferred
channel, or one outside the default set such as `"bogus"`, leaves the
effective set exactly the default set. -/
theorem build_channels_spec :
    (∀ c : String, build_channels (some c) =
      if c ∈ CHANNELS then c :: CHANNELS else CHANNELS) ∧
    build_channels none = CHANNELS ∧
    build_channels (some "bogus") = CHANNELS := by
  refine ⟨fun c => ?_, rfl, by decide⟩
  by_cases h : c ∈ CHANNELS
  · have hne : c ≠ "" := by rintro rfl; revert h; decide
    simp [build_channels, hne, h]
  · simp [build_channels, h]

/-- C4: `validate_install_command` accepts a command iff whitespace
splitting yields at least 3 tokens whose first two are `"conda"` and
`"install"`; in particular the four concrete examples of the spec. -/
theorem validate_install_command_spec :
    (∀ command : String, validate_install_command command = true ↔
      ∃ t rest, pySplit command = "conda" :: "install" :: t :: rest) ∧
    validate_install_command "conda install -c conda-forge numpy" = true ∧
    validate_install_command "pip install numpy" = false ∧
    validate_install_command "conda" = false ∧
    validate_install_command "" = false := by
  refine ⟨fun command => ?_, by decide, by decide, by decide, by decide⟩
  rcases hp : pySplit command with _ | ⟨t0, _ | ⟨t1, _ | ⟨t2, rest⟩⟩⟩ <;>
    simp [validate_install_command, hp]

/-- C5: `extract_install_command` returns the first code fragment (in
document order) containing the literal substring `"conda install"`,
stripped of surrounding whitespace, and `none` when no fragment
contains it; in particular, over `["pip install x",
"conda install -c main y"]` it returns the second fragment. -/
theorem extract_install_command_spec :
    (∀ (pre post : List String) (t : String),
        (∀ u ∈ pre, containsSubstr u "conda install" = false) →
        containsSubstr t "conda install" = true →
        extract_install_command ⟨pre ++ t :: post⟩ = some (pyStrip t)) ∧
    (∀ page : Page, (∀ u ∈ page.codeTexts, containsSubstr u "conda install" = false) →
        extract_install_command page = none) ∧
    extract_install_command ⟨["pip install x", "conda install -c main y"]⟩ =
      some "conda install -c main y" := by
  refine ⟨?_, ?_, by decide⟩
  · intro pre post t hpre ht
    unfold extract_install_command
    induction pre with
    | nil => simp [find_conda_code, ht]
    | cons u us ih =>
      have hu := hpre u (List.mem_cons_self u us)
      simp only [List.cons_append, find_conda_code, hu]
      exact ih (fun v hv => hpre v (List.mem_cons_of_mem u hv))
  · intro page hall
    unfold extract_install_command
    obtain ⟨l⟩ := page
    induction l with
    | nil => simp [find_conda_code]
    | cons u us ih =>
      simp only [find_conda_code, hall u (List.mem_cons_self u us)]
      simp only [Bool.false_eq_true, if_false]
      exact ih (fun v hv => hall v (List.mem_cons_of_mem u hv))

theorem extract_install_command_spec_witness :
    extract_install_command ⟨["pip install x", "conda install -c main y"]⟩ =
      some (pyStrip "conda install -c main y") ∧
    extract_install_command ⟨["pip install x"]⟩ = none :=
  ⟨extract_install_command_spec.1 ["pip install x"] [] "conda install -c main y"
      (by intro u hu; simp only [List.mem_singleton] at hu; subst hu; rfl) rfl,
    extract_install_command_spec.2.1 ⟨["pip install x"]⟩
      (by intro u hu; simp only [List.mem_singleton] at hu; subst hu; rfl)⟩

theorem probe_channels_skip_head (name : String) (allowed : List String)
    (fetch : String → Option Page) (u : String) (rest : List String)
    (hu : pyStrip u ∈ allowed → fetch (module_url name (pyStrip u)) = none) :
    (probe_channels name allowed fetch (u :: rest)).2 =
      (probe_channels name allowed fetch rest).2 := by
  simp only [probe_channels]
  by_cases hmem : pyStrip u ∈ allowed
  · simp only [if_pos hmem, hu hmem]
  · simp only [if_neg hmem]

theorem probe_channels_hit (name : String) (allowed : List String)
    (fetch : String → Option Page) (t : String) (post : List String) (p : Page)
    (ht : pyStrip t ∈ allowed) (hf : fetch (module_url name (pyStrip t)) = some p) :
    (probe_channels name allowed fetch (t :: post)).2 = some (p, pyStrip t) := by
  simp only [probe_channels, if_pos ht, hf]

theorem probe_channels_first_match (name : String) (allowed : List String)
    (fetch : String → Option Page) (pre : List String) (t : String)
    (post : List String) (p : Page)
    (hpre : ∀ u ∈ pre, pyStrip u ∈ allowed → fetch (module_url name (pyStrip u)) = none)
    (ht : pyStrip t ∈ allowed) (hf : fetch (module_url name (pyStrip t)) = some p) :
    (probe_channels name allowed fetch (pre ++ t :: post)).2 = some (p, pyStrip t) := by
  induction pre with
  | nil => exact probe_channels_hit name allowed fetch t post p ht hf
  | cons u us ih =>
    rw [List.cons_append,
      probe_channels_skip_head name allowed fetch u (us ++ t :: post)
        (hpre u (List.mem_cons_self u us))]
    exact ih (fun v hv => hpre v (List.mem_cons_of_mem u hv))

/-- C2: `fetch_module_page` iterates candidate channel labels in
document order and returns `(page, channel)` for the first candidate
whose stripped label is in the effective allowed set and whose fetch of
`BASE_MODULE_URL ++ channel ++ "/" ++ name` succeeds; candidates before
it either have a disallowed label or a failing fetch, so no re-ranking
occurs among matches. -/
theorem fetch_module_page_first_match
    (name : String) (pc : Option String) (fetch : String → Option Page)
    (parse : Page → SearchDoc) (sp : Page) (pre post : List String) (t : String) (p : Page)
    (hs : fetch (search_url name) = some sp)
    (hlinks : (parse sp).module_links ≠ [])
    (hch : (parse sp).module_channels = pre ++ t :: post)
    (hpre : ∀ u ∈ pre, pyStrip u ∈ build_channels pc →
        fetch (module_url name (pyStrip u)) = none)
    (ht : pyStrip t ∈ build_channels pc)
    (hf : fetch (module_url name (pyStrip t)) = some p) :
    (fetch_module_page name pc fetch parse).2 = .ok (p, pyStrip t) := by
  have hne : (parse sp).module_channels ≠ [] := by rw [hch]; exact List.append_ne_nil_of_right_ne_nil pre (by simp)
  unfold fetch_module_page search_module
  rw [hs]
  simp only
  rw [if_neg (by push_neg; exact ⟨hlinks, hne⟩)]
  rw [hch]
  simp only [probe_channels_first_match name (build_channels pc) fetch pre t post p hpre ht hf]

theorem fetch_module_page_first_match_witness :
    (fetch_module_page "numpy" (some "conda-forge")
      (fun u => if u = search_url "numpy" then some ⟨[]⟩
        else if u = module_url "numpy" "conda-forge" then
          some ⟨["conda install -c conda-forge numpy"]⟩
        else none)
      (fun _ => ⟨["l1", "l2"], [" other ", "conda-forge"]⟩)).2 =
      .ok (⟨["conda install -c conda-forge numpy"]⟩, "conda-forge") := by
  have h := fetch_module_page_first_match "numpy" (some "conda-forge")
    (fun u => if u = search_url "numpy" then some ⟨[]⟩
      else if u = module_url "numpy" "conda-forge" then
        some ⟨["conda install -c conda-forge numpy"]⟩
      else none)
    (fun _ => ⟨["l1", "l2"], [" other ", "conda-forge"]⟩)
    ⟨[]⟩ [" other "] [] "conda-forge" ⟨["conda install -c conda-forge numpy"]⟩
    (by decide) (by decide) (by decide)
    (by intro u hu hmem; simp only [List.mem_singleton] at hu; subst hu; revert hmem; decide)
    (by decide) (by decide)
  simpa using h

theorem probe_channels_none_iff (name : String) (allowed : List String)
    (fetch : String → Option Page) (tags : List String) :
    (probe_channels name allowed fetch tags).2 = none ↔
      ∀ tag ∈ tags, pyStrip tag ∈ allowed →
        fetch (module_url name (pyStrip tag)) = none := by
  induction tags with
  | nil => simp [probe_channels]
  | cons u us ih =>
    simp only [probe_channels]
    by_cases hmem : pyStrip u ∈ allowed
    · rw [if_pos hmem]
      cases hf : fetch (module_url name (pyStrip u)) with
      | some r =>
        simp only []
        constructor
        · intro h; simp at h
        · intro h
          have hu := h u (List.mem_cons_self u us) hmem
          rw [hf] at hu
          simp at hu
      | none =>
        simp only []
        rw [ih]
        constructor
        · intro h tag htag hmem2
          rcases List.mem_cons.mp htag with rfl | htag2
          · exact hf
          · exact h tag htag2 hmem2
        · intro h tag htag hmem2
          exact h tag (List.mem_cons_of_mem u htag) hmem2
    · rw [if_neg hmem, ih]
      constructor
      · intro h tag htag hmem2
        rcases List.mem_cons.mp htag with rfl | htag2
        · exact absurd hmem2 hmem
        · exact h tag htag2 hmem2
      · intro h tag htag hmem2
        exact h tag (List.mem_cons_of_mem u htag) hmem2

/-- C6 counterexample: a module-page Fetcher exhaustion does not abort
the pipeline.  With candidates `["conda-forge", "anaconda"]`, the
`conda-forge` module fetch exhausts (returns `none`), yet a further
module-page fetch (the `anaconda` URL) occurs afterwards and the
resolution succeeds. -/
theorem fetcher_exhaustion_continues_counterexample :
    (fun u => if u = search_url "numpy" then some (⟨[]⟩ : Page)
       else if u = module_url "numpy" "anaconda" then
         some ⟨["conda install -c anaconda numpy"]⟩
       else none) (module_url "numpy" "conda-forge") = none ∧
    fetch_module_page "numpy" none
      (fun u => if u = search_url "numpy" then some (⟨[]⟩ : Page)
       else if u = module_url "numpy" "anaconda" then
         some ⟨["conda install -c anaconda numpy"]⟩
       else none)
      (fun _ => ⟨["lnk"], ["conda-forge", "anaconda"]⟩) =
      ([search_url "numpy", module_url "numpy" "conda-forge",
        module_url "numpy" "anaconda"],
        .ok (⟨["conda install -c anaconda numpy"]⟩, "anaconda")) := ⟨rfl, rfl⟩

/-- C6 amended: when the initial search fetch exhausts its retries the
pipeline aborts immediately with no module-page fetches; a module-page
Fetcher exhaustion instead moves the resolver to the next allowed
candidate, the probe loop failing only when every allowed candidate
fails to fetch; and every higher-level stage failure (resolution error,
failed extraction, failed validation) terminates the run immediately
with exit code 1 and nothing surfaced. -/
theorem pipeline_abort_policy
    (name : String) (pc : Option String) (dry : Bool)
    (fetch : String → Option Page) (parse : Page → SearchDoc)
    (ex : List String → Bool) :
    (fetch (search_url name) = none →
      fetch_module_page name pc fetch parse =
        ([search_url name], .error .searchFailed)) ∧
    (∀ allowed tags, (probe_channels name allowed fetch tags).2 = none ↔
      ∀ tag ∈ tags, pyStrip tag ∈ allowed →
        fetch (module_url name (pyStrip tag)) = none) ∧
    (∀ e, (fetch_module_page name pc fetch parse).2 = .error e →
      mainRun name pc dry fetch parse ex = ⟨1, none, none⟩) ∧
    (∀ p c, (fetch_module_page name pc fetch parse).2 = .ok (p, c) →
      extract_install_command p = none →
      mainRun name pc dry fetch parse ex = ⟨1, none, none⟩) ∧
    (∀ p c cmd, (fetch_module_page name pc fetch parse).2 = .ok (p, c) →
      extract_install_command p = some cmd →
      validate_install_command cmd = false →
      mainRun name pc dry fetch parse ex = ⟨1, none, none⟩) := by
  refine ⟨?_, fun allowed tags => probe_channels_none_iff name allowed fetch tags,
    ?_, ?_, ?_⟩
  · intro hs
    unfold fetch_module_page search_module
    rw [hs]
  · intro e he
    unfold mainRun
    by_cases hname : name = ""
    · rw [if_pos hname]
    · rw [if_neg hname, he]
  · intro p c hres hex
    unfold mainRun
    by_cases hname : name = ""
    · rw [if_pos hname]
    · rw [if_neg hname, hres]
      simp only [hex]
  · intro p c cmd hres hex hv
    unfold mainRun
    by_cases hname : name = ""
    · rw [if_pos hname]
    · rw [if_neg hname, hres]
      simp only [hex, if_pos hv]

theorem pipeline_abort_policy_witness :
    fetch_module_page "numpy" none (fun _ => (none : Option Page))
      (fun _ => ⟨[], []⟩) = ([search_url "numpy"], .error .searchFailed) ∧
    mainRun "numpy" none true (fun _ => none) (fun _ => ⟨[], []⟩)
      (fun _ => true) = ⟨1, none, none⟩ := by
  have h := pipeline_abort_policy "numpy" none true (fun _ => none)
    (fun _ => ⟨[], []⟩) (fun _ => true)
  refine ⟨h.1 rfl, h.2.2.1 .searchFailed ?_⟩
  rw [h.1 rfl]

/-- C7: when the search document's module-link or channel-label
sequence is empty, the resolver fails with the "not available from any
valid channel" reason, the only fetch performed is the search request
itself (zero module-page fetches), and the run exits with code 1. -/
theorem no_candidates_aborts
    (name : String) (pc : Option String) (dry : Bool)
    (fetch : String → Option Page) (parse : Page → SearchDoc)
    (ex : List String → Bool) (sp : Page)
    (hs : fetch (search_url name) = some sp)
    (hempty : (parse sp).module_links = [] ∨ (parse sp).module_channels = []) :
    fetch_module_page name pc fetch parse =
      ([search_url name], .error .noValidChannel) ∧
    (mainRun name pc dry fetch parse ex).exitCode = 1 := by
  have h1 : fetch_module_page name pc fetch parse =
      ([search_url name], .error .noValidChannel) := by
    unfold fetch_module_page search_module
    rw [hs]
    simp only [if_pos hempty]
  refine ⟨h1, ?_⟩
  unfold mainRun
  by_cases hname : name = ""
  · rw [if_pos hname]
  · rw [if_neg hname, h1]

theorem no_candidates_aborts_witness :
    fetch_module_page "numpy" none
      (fun u => if u = search_url "numpy" then some (⟨[]⟩ : Page) else none)
      (fun _ => ⟨[], []⟩) = ([search_url "numpy"], .error .noValidChannel) ∧
    (mainRun "numpy" none true
      (fun u => if u = search_url "numpy" then some (⟨[]⟩ : Page) else none)
      (fun _ => ⟨[], []⟩) (fun _ => true)).exitCode = 1 :=
  no_candidates_aborts "numpy" none true
    (fun u => if u = search_url "numpy" then some (⟨[]⟩ : Page) else none)
    (fun _ => ⟨[], []⟩) (fun _ => true) ⟨[]⟩ (by decide) (Or.inl rfl)


/-- C8: an install command is surfaced (printed in dry-run mode or
handed to process execution) only after `validate_install_command`
accepted it; when validation rejects the extracted command the run
terminates with exit code 1 with nothing printed and nothing
executed. -/
theorem surfaced_only_validated
    (name : String) (pc : Option String) (dry : Bool)
    (fetch : String → Option Page) (parse : Page → SearchDoc)
    (ex : List String → Bool) :
    (∀ cmd, (mainRun name pc dry fetch parse ex).printed = some cmd →
        validate_install_command cmd = true) ∧
    (∀ argv, (mainRun name pc dry fetch parse ex).executed = some argv →
        ∃ cmd, validate_install_command cmd = true ∧ argv = pySplit cmd) ∧
    (∀ p c cmd, (fetch_module_page name pc fetch parse).2 = .ok (p, c) →
        extract_install_command p = some cmd →
        validate_install_command cmd = false →
        mainRun name pc dry fetch parse ex = ⟨1, none, none⟩) := by
  unfold mainRun
  by_cases hname : name = ""
  · rw [if_pos hname]
    exact ⟨fun cmd h => by simp at h, fun argv h => by simp at h,
      fun p c cmd _ _ _ => rfl⟩
  · rw [if_neg hname]
    cases hres : (fetch_module_page name pc fetch parse).2 with
    | error e =>
      exact ⟨fun cmd h => by simp at h, fun argv h => by simp at h,
        fun p c cmd h2 _ _ => nomatch h2⟩
    | ok pr =>
      obtain ⟨p, c⟩ := pr
      dsimp only
      cases hex : extract_install_command p with
      | none =>
        exact ⟨fun cmd h => by simp at h, fun argv h => by simp at h,
          fun p2 c2 cmd h2 hex2 _ => rfl⟩
      | some cmd =>
        dsimp only
        by_cases hv : validate_install_command cmd = false
        · rw [if_pos hv]
          exact ⟨fun cmd2 h => by simp at h, fun argv h => by simp at h,
            fun p2 c2 cmd2 _ _ _ => rfl⟩
        · have hv2 : validate_install_command cmd = true := by
            revert hv; cases validate_install_command cmd <;> simp
          rw [if_neg hv]
          refine ⟨?_, ?_, ?_⟩
          · intro cmd2 h
            by_cases hd : dry
            · rw [if_pos hd] at h
              simp at h
              rw [← h]
              exact hv2
            · rw [if_neg hd] at h
              cases hx : ex (pySplit cmd) <;> rw [hx] at h <;> simp at h
          · intro argv h
            by_cases hd : dry
            · rw [if_pos hd] at h
              simp at h
            · rw [if_neg hd] at h
              cases hx : ex (pySplit cmd) <;> rw [hx] at h <;> simp at h <;>
                exact ⟨cmd, hv2, h.symm⟩
          · intro p2 c2 cmd2 h2 hex2 hv3
            injection h2 with h3
            cases h3
            rw [hex] at hex2
            injection hex2 with h4
            rw [← h4] at hv3
            rw [hv3] at hv2
            exact Bool.noConfusion hv2

theorem surfaced_only_validated_witness :
    validate_install_command "conda install -c main numpy" = true :=
  (surfaced_only_validated "numpy" none true
    (fun u => if u = search_url "numpy" then some ⟨[]⟩
      else if u = module_url "numpy" "main" then
        some ⟨["conda install -c main numpy"]⟩
      else none)
    (fun _ => ⟨["lnk"], ["main"]⟩) (fun _ => true)).1
    "conda install -c main numpy" (by rfl)

/-- C9: the process exit code is 0 or 1; it is 0 exactly when
resolution, extraction and validation all succeed and either the run is
a dry run or the executed install process exits zero — so any
resolution failure, invalid command, or failed execution exits 1. -/
theorem exit_code_spec
    (name : String) (pc : Option String) (dry : Bool)
    (fetch : String → Option Page) (parse : Page → SearchDoc)
    (ex : List String → Bool) :
    ((mainRun name pc dry fetch parse ex).exitCode = 0 ∨
      (mainRun name pc dry fetch parse ex).exitCode = 1) ∧
    ((mainRun name pc dry fetch parse ex).exitCode = 0 ↔
      name ≠ "" ∧ ∃ p c cmd,
        (fetch_module_page name pc fetch parse).2 = .ok (p, c) ∧
        extract_install_command p = some cmd ∧
        validate_install_command cmd = true ∧
        (dry = true ∨ ex (pySplit cmd) = true)) := by
  unfold mainRun
  by_cases hname : name = ""
  · rw [if_pos hname]
    refine ⟨Or.inr rfl, ?_⟩
    simp [hname]
  · rw [if_neg hname]
    cases hres : (fetch_module_page name pc fetch parse).2 with
    | error e =>
      refine ⟨Or.inr rfl, ?_⟩
      dsimp only
      constructor
      · intro h; exact absurd h (by simp)
      · rintro ⟨-, p, c, cmd, h2, -⟩
        exact nomatch h2
    | ok pr =>
      obtain ⟨p, c⟩ := pr
      dsimp only
      cases hex : extract_install_command p with
      | none =>
        refine ⟨Or.inr rfl, ?_⟩
        constructor
        · intro h; exact absurd h (by simp)
        · rintro ⟨-, p2, c2, cmd, h2, hex2, -⟩
          injection h2 with h3
          cases h3
          rw [hex] at hex2
          exact nomatch hex2
      | some cmd =>
        dsimp only
        by_cases hv : validate_install_command cmd = false
        · rw [if_pos hv]
          refine ⟨Or.inr rfl, ?_⟩
          constructor
          · intro h; exact absurd h (by simp)
          · rintro ⟨-, p2, c2, cmd2, h2, hex2, hv2, -⟩
            injection h2 with h3
            cases h3
            rw [hex] at hex2
            injection hex2 with h4
            rw [← h4] at hv2
            rw [hv] at hv2
            exact Bool.noConfusion hv2
        · have hv2 : validate_install_command cmd = true := by
            revert hv; cases validate_install_command cmd <;> simp
          rw [if_neg hv]
          by_cases hd : dry
          · rw [if_pos hd]
            refine ⟨Or.inl rfl, ?_⟩
            constructor
            · intro _
              exact ⟨hname, p, c, cmd, rfl, hex, hv2, Or.inl hd⟩
            · intro _; rfl
          · rw [if_neg hd]
            cases hx : ex (pySplit cmd) with
            | true =>
              rw [if_pos rfl]
              refine ⟨Or.inl rfl, ?_⟩
              constructor
              · intro _
                exact ⟨hname, p, c, cmd, rfl, hex, hv2, Or.inr hx⟩
              · intro _; rfl
            | false =>
              rw [if_neg Bool.false_ne_true]
              refine ⟨Or.inr rfl, ?_⟩
              constructor
              · intro h; exact absurd h (by simp)
              · rintro ⟨-, p2, c2, cmd2, h2, hex2, -, hor⟩
                injection h2 with h3
                cases h3
                rw [hex] at hex2
                injection hex2 with h4
                cases h4
                rcases hor with hd2 | hx2
                · exact absurd hd2 hd
                · rw [hx] at hx2
                  exact Bool.noConfusion hx2

/-- C10: two search documents with the same channel-label sequence and
both with a non-empty module-link sequence give the same probe URLs and
the same result for equal names, preferred channels and fetch outcomes:
the module links influence resolution only through the non-emptiness
check. -/
theorem module_links_noninterference
    (name : String) (pc : Option String) (fetch : String → Option Page)
    (parse1 parse2 : Page → SearchDoc) (sp : Page)
    (hs : fetch (search_url name) = some sp)
    (hch : (parse1 sp).module_channels = (parse2 sp).module_channels)
    (h1 : (parse1 sp).module_links ≠ [])
    (h2 : (parse2 sp).module_links ≠ []) :
    fetch_module_page name pc fetch parse1 = fetch_module_page name pc fetch parse2 := by
  unfold fetch_module_page search_module
  rw [hs]
  dsimp only
  by_cases hc : (parse1 sp).module_channels = []
  · rw [if_pos (Or.inr hc), if_pos (Or.inr (hch ▸ hc))]
  · rw [if_neg (by push_neg; exact ⟨h1, hc⟩),
      if_neg (by push_neg; exact ⟨h2, fun h => hc (hch.trans h ▸ rfl)⟩)]
    rw [hch]

theorem module_links_noninterference_witness :
    fetch_module_page "numpy" none
      (fun u => if u = search_url "numpy" then some (⟨[]⟩ : Page)
        else if u = module_url "numpy" "main" then some ⟨["conda install -c main numpy"]⟩
        else none)
      (fun _ => ⟨["a"], ["main"]⟩) =
    fetch_module_page "numpy" none
      (fun u => if u = search_url "numpy" then some (⟨[]⟩ : Page)
        else if u = module_url "numpy" "main" then some ⟨["conda install -c main numpy"]⟩
        else none)
      (fun _ => ⟨["b", "c"], ["main"]⟩) :=
  module_links_noninterference "numpy" none
    (fun u => if u = search_url "numpy" then some (⟨[]⟩ : Page)
      else if u = module_url "numpy" "main" then some ⟨["conda install -c main numpy"]⟩
      else none)
    (fun _ => ⟨["a"], ["main"]⟩) (fun _ => ⟨["b", "c"], ["main"]⟩) ⟨[]⟩
    (by decide) rfl (by decide) (by decide)

end CondaInstaller
